import Mathlib

/-!
Shallow embedding of `src/log_parser.py` (Python-Log-Parser).

The program is a single linear pass over the lines of an authentication
log.  Each line is tested against two compiled regular expressions via
`re.search`:

  failed_pattern  = Failed password for (invalid user )?(\w+) from ([\d\.]+) port \d+ ssh2
  success_pattern = Accepted password for (\w+) from ([\d\.]+) port \d+ ssh2

On a failed match the loop appends `{user, ip, raw: line.strip()}` to
`failed_logins` and `continue`s (priority rule); otherwise, on a success
match it appends to `successful_logins`.  `main` checks that the log
path exists (printing an error and returning early when it does not),
runs the scan, prints a summary and writes the two lists as JSON
(`json.dump(..., indent=2)`).

Embedding notes.

* The input is modelled as the list of lines the Python `for line in f`
  loop iterates over; `str.strip()` is modelled on ASCII whitespace.
* `\w` and `\d` are modelled on their ASCII meaning (letters, digits,
  underscore; decimal digits); the claims only involve ASCII text.
* `re.search` tries the pattern at every start position from the left;
  the first position admitting a match wins.  This is `searchAux`.
* At a fixed start position both patterns are a literal, an optional
  literal (failed pattern only), and then
  `(\w+) from ([\d\.]+) port \d+ ssh2`.  Each `+` piece is greedy, but
  the literal following each piece starts with a space, and space
  belongs to none of the character classes; therefore backtracking a
  `+` piece to a shorter run always fails immediately (the next
  character still belongs to the class, so the literal cannot match),
  and the greedy `+` is exactly "maximal nonempty run of the class
  followed by the literal".  The only genuine backtracking point is the
  optional group `(invalid user )?`, which the engine first tries to
  take and, if the rest of the pattern fails, retries without; this is
  modelled explicitly in `failedAt`.
-/

/-- ASCII model of Python `\w` (letter, digit or underscore). -/
def isWordChar (c : Char) : Bool :=
  c.isAlpha || c.isDigit || c = '_'

/-- Model of the character class `[\d\.]` (digit or literal dot). -/
def isIpChar (c : Char) : Bool :=
  c.isDigit || c = '.'

/-- ASCII model of the whitespace stripped by Python `str.strip()`. -/
def isPyWhitespace (c : Char) : Bool :=
  c = ' ' || c = '\t' || c = '\n' || c = '\x0d' || c = '\x0b' || c = '\x0c'

/-- Python `line.strip()`: remove leading and trailing whitespace. -/
def pyStrip (s : String) : String :=
  String.mk (((s.data.dropWhile isPyWhitespace).reverse.dropWhile isPyWhitespace).reverse)

/-- Match a literal at the start of the input, returning the rest. -/
def dropLit : List Char → List Char → Option (List Char)
  | [], s => some s
  | _ :: _, [] => none
  | c :: cs, d :: ds => if c = d then dropLit cs ds else none

/-- Maximal run of characters satisfying `p` at the start of the input,
together with the rest. -/
def takeRun (p : Char → Bool) : List Char → List Char × List Char
  | [] => ([], [])
  | c :: cs =>
    if p c then
      let r := takeRun p cs
      (c :: r.1, r.2)
    else ([], c :: cs)

/-- A greedy `+` over the class `p`: maximal nonempty run (see the
header comment for why no backtracking into the run is needed for the
patterns at hand). -/
def plusRun (p : Char → Bool) (s : List Char) : Option (List Char × List Char) :=
  let r := takeRun p s
  if r.1.isEmpty then none else some r

/-- The common tail `(\w+) from ([\d\.]+) port \d+ ssh2` of both
patterns, matched at the start of the input.  Returns the two captures
(user, ip). -/
def matchTail (s : List Char) : Option (String × String) := do
  let u ← plusRun isWordChar s
  let s1 ← dropLit " from ".data u.2
  let i ← plusRun isIpChar s1
  let s2 ← dropLit " port ".data i.2
  let d ← plusRun Char.isDigit s2
  let _ ← dropLit " ssh2".data d.2
  some (String.mk u.1, String.mk i.1)

/-- `failed_pattern` matched at a fixed start position:
`Failed password for (invalid user )?(\w+) from ([\d\.]+) port \d+ ssh2`.
The optional group is tried first (greedy `?`); if the rest of the
pattern then fails, the engine retries without the group. -/
def failedAt (s : List Char) : Option (String × String) :=
  (dropLit "Failed password for ".data s).bind fun s1 =>
    match dropLit "invalid user ".data s1 with
    | some s2 =>
      match matchTail s2 with
      | some r => some r
      | none => matchTail s1
    | none => matchTail s1

/-- `success_pattern` matched at a fixed start position:
`Accepted password for (\w+) from ([\d\.]+) port \d+ ssh2`. -/
def acceptedAt (s : List Char) : Option (String × String) :=
  (dropLit "Accepted password for ".data s).bind matchTail

/-- Python `re.search`: try the position matcher `f` at every start
position, leftmost first. -/
def searchAux (f : List Char → Option (String × String)) : List Char → Option (String × String)
  | [] => f []
  | c :: cs =>
    match f (c :: cs) with
    | some r => some r
    | none => searchAux f cs

/-- `failed_pattern.search(line)`, reduced to its captures. -/
def searchFailed (s : List Char) : Option (String × String) :=
  searchAux failedAt s

/-- `success_pattern.search(line)`, reduced to its captures. -/
def searchAccepted (s : List Char) : Option (String × String) :=
  searchAux acceptedAt s

/-- One record appended by the loop: `{'user': .., 'ip': .., 'raw': ..}`. -/
structure LoginAttempt where
  user : String
  ip : String
  raw : String
deriving Repr, DecidableEq

/-- The body of the `for line in f` loop in `parse_auth_log`, acting on
the accumulator `(failed_logins, successful_logins)`. -/
def step (acc : List LoginAttempt × List LoginAttempt) (line : String) :
    List LoginAttempt × List LoginAttempt :=
  match searchFailed line.data with
  | some r => (acc.1 ++ [⟨r.1, r.2, pyStrip line⟩], acc.2)
  | none =>
    match searchAccepted line.data with
    | some r => (acc.1, acc.2 ++ [⟨r.1, r.2, pyStrip line⟩])
    | none => acc

/-- `parse_auth_log`: scan the lines, returning
`(failed_logins, successful_logins)`. -/
def parse_auth_log (lines : List String) : List LoginAttempt × List LoginAttempt :=
  lines.foldl step ([], [])

/-- One hexadecimal digit, lowercase (as produced by Python json). -/
def hexDigit (n : Nat) : Char :=
  if n < 10 then Char.ofNat ('0'.toNat + n) else Char.ofNat ('a'.toNat + (n - 10))

/-- Four hexadecimal digits. -/
def hex4 (n : Nat) : String :=
  String.mk [hexDigit (n / 4096 % 16), hexDigit (n / 256 % 16), hexDigit (n / 16 % 16), hexDigit (n % 16)]

/-- `\uXXXX` escape used by `json.dump` (default `ensure_ascii=True`);
code points above U+FFFF become a surrogate pair. -/
def uEscape (c : Char) : String :=
  let n := c.toNat
  if n ≤ 0xFFFF then "\\u" ++ hex4 n
  else
    let m := n - 0x10000
    "\\u" ++ hex4 (0xD800 + m / 1024) ++ "\\u" ++ hex4 (0xDC00 + m % 1024)

/-- Escaping of one character inside a JSON string, as done by
`json.dump` with its defaults. -/
def jsonEscapeChar (c : Char) : String :=
  if c = '"' then "\\\""
  else if c = '\\' then "\\\\"
  else if c = '\n' then "\\n"
  else if c = '\t' then "\\t"
  else if c = '\x0d' then "\\r"
  else if c = '\x08' then "\\b"
  else if c = '\x0c' then "\\f"
  else if c.toNat < 0x20 || c.toNat > 0x7e then uEscape c
  else String.mk [c]

/-- A JSON string literal. -/
def jsonString (s : String) : String :=
  "\"" ++ String.join (s.data.map jsonEscapeChar) ++ "\""

/-- One record as serialized by `json.dump(..., indent=2)` at nesting
depth 1 (keys in dict insertion order: user, ip, raw). -/
def attemptJson (a : LoginAttempt) : String :=
  "  \x7b\n"
    ++ "    \"user\": " ++ jsonString a.user ++ ",\n"
    ++ "    \"ip\": " ++ jsonString a.ip ++ ",\n"
    ++ "    \"raw\": " ++ jsonString a.raw ++ "\n"
    ++ "  \x7d"

/-- `json.dump(attempts, f, indent=2)`: the full file contents.  The
empty list serializes to `[]`. -/
def dumpAttempts : List LoginAttempt → String
  | [] => "[]"
  | a :: rest => "[\n" ++ String.intercalate ",\n" ((a :: rest).map attemptJson) ++ "\n]"

/-- The lines `main` prints to stdout after a successful scan. -/
def summaryLines (failed successful : List LoginAttempt)
    (failedFile successFile : String) : List String :=
  ("Failed login attempts found: " ++ toString failed.length)
    :: failed.map (fun a => "User: " ++ a.user ++ ", IP: " ++ a.ip)
    ++ ("\nSuccessful login attempts found: " ++ toString successful.length)
    :: successful.map (fun a => "User: " ++ a.user ++ ", IP: " ++ a.ip)
    ++ ["\nParsed data saved to:\n   " ++ failedFile ++ "\n " ++ successFile]

/-- Observable effects of one run of `main`: the lines printed to
stdout and, for each of the two output files, the contents written to
it (`none` when the file is not written). -/
structure MainOutput where
  printed : List String
  wroteFailed : Option String
  wroteSuccess : Option String
deriving Repr, DecidableEq

/-- The CLI entry point `main` of the source (named `mainFn` here
because Lean reserves `main` for executables).  `fileExists` models
`log_path.exists()`; `lines` models the decoded contents of the file
(`errors='ignore'` decoding happens before the scan and is not
modelled further); `logPath` is the string form of the `--logfile`
argument and `logDir` the string form of its parent directory, so the
two output files are `logDir ++ "failed_logins.json"` and
`logDir ++ "successful_logins.json"`. -/
def mainFn (fileExists : Bool) (lines : List String) (logPath logDir : String) : MainOutput :=
  if fileExists then
    let r := parse_auth_log lines
    let failedFile := logDir ++ "failed_logins.json"
    let successFile := logDir ++ "successful_logins.json"
    { printed := summaryLines r.1 r.2 failedFile successFile
      wroteFailed := some (dumpAttempts r.1)
      wroteSuccess := some (dumpAttempts r.2) }
  else
    { printed := ["Error: Log file does not exist: " ++ logPath]
      wroteFailed := none
      wroteSuccess := none }

/-! ### Per-line record functions and the scan as a `filterMap` -/

/-- The record the loop appends to `failed_logins` for a given line,
when the failed pattern matches. -/
def failedRec (line : String) : Option LoginAttempt :=
  (searchFailed line.data).map fun r => ⟨r.1, r.2, pyStrip line⟩

/-- The record the loop appends to `successful_logins` for a given
line: only when the failed pattern does not match (the `continue`
priority rule) and the success pattern does. -/
def succRec (line : String) : Option LoginAttempt :=
  match searchFailed line.data with
  | some _ => none
  | none => (searchAccepted line.data).map fun r => ⟨r.1, r.2, pyStrip line⟩

theorem step_failed (acc : List LoginAttempt × List LoginAttempt) (line : String)
    (u ip : String) (h : searchFailed line.data = some (u, ip)) :
    step acc line = (acc.1 ++ [⟨u, ip, pyStrip line⟩], acc.2) := by
  simp [step, h]

theorem step_accepted (acc : List LoginAttempt × List LoginAttempt) (line : String)
    (u ip : String) (hf : searchFailed line.data = none)
    (h : searchAccepted line.data = some (u, ip)) :
    step acc line = (acc.1, acc.2 ++ [⟨u, ip, pyStrip line⟩]) := by
  simp [step, hf, h]

theorem step_none (acc : List LoginAttempt × List LoginAttempt) (line : String)
    (hf : searchFailed line.data = none) (ha : searchAccepted line.data = none) :
    step acc line = acc := by
  simp [step, hf, ha]

theorem parse_snoc (lines : List String) (line : String) :
    parse_auth_log (lines ++ [line]) = step (parse_auth_log lines) line := by
  simp [parse_auth_log, List.foldl_append]

theorem foldl_step_filterMap (lines : List String) :
    ∀ acc : List LoginAttempt × List LoginAttempt,
      lines.foldl step acc =
        (acc.1 ++ lines.filterMap failedRec, acc.2 ++ lines.filterMap succRec) := by
  induction lines with
  | nil => intro acc; simp
  | cons l ls ih =>
    intro acc
    cases hf : searchFailed l.data with
    | some r =>
      simp only [List.foldl_cons, ih, List.filterMap_cons, failedRec, succRec, hf,
        Option.map_some]
      simp [step, hf, List.append_assoc]
    | none =>
      cases ha : searchAccepted l.data with
      | some r =>
        simp only [List.foldl_cons, ih, List.filterMap_cons, failedRec, succRec, hf, ha,
          Option.map_some]
        simp [step, hf, ha, List.append_assoc]
      | none =>
        simp only [List.foldl_cons, ih, List.filterMap_cons, failedRec, succRec, hf, ha]
        simp [step, hf, ha]

theorem parse_filterMap (lines : List String) :
    parse_auth_log lines = (lines.filterMap failedRec, lines.filterMap succRec) := by
  simpa [parse_auth_log] using foldl_step_filterMap lines ([], [])


/-! ### Search and pattern-head helper lemmas -/

theorem searchAux_append_isSome (f : List Char → Option (String × String))
    (pre s : List Char) (h : (f s).isSome = true) :
    (searchAux f (pre ++ s)).isSome = true := by
  induction pre with
  | nil =>
    cases s with
    | nil => simpa [searchAux] using h
    | cons c cs =>
      simp only [List.nil_append, searchAux]
      cases hf : f (c :: cs) with
      | some r => simp
      | none => rw [hf] at h; simp at h
  | cons c pre ih =>
    simp only [List.cons_append, searchAux]
    cases hf : f (c :: (pre ++ s)) with
    | some r => simp
    | none => simpa using ih

theorem dropLit_head (c : Char) (cs s t : List Char)
    (h : dropLit (c :: cs) s = some t) : s.head? = some c := by
  cases s with
  | nil => simp [dropLit] at h
  | cons d ds =>
    simp only [dropLit] at h
    split at h
    · rename_i hcd
      simp [hcd]
    · exact absurd h (by simp)

theorem failedAt_head (s : List Char) (r : String × String)
    (h : failedAt s = some r) : s.head? = some 'F' := by
  unfold failedAt at h
  obtain ⟨s1, hs1, -⟩ := Option.bind_eq_some.mp h
  rw [show "Failed password for ".data = 'F' :: "ailed password for ".data from rfl] at hs1
  exact dropLit_head _ _ _ _ hs1

theorem acceptedAt_head (s : List Char) (r : String × String)
    (h : acceptedAt s = some r) : s.head? = some 'A' := by
  unfold acceptedAt at h
  obtain ⟨s1, hs1, -⟩ := Option.bind_eq_some.mp h
  rw [show "Accepted password for ".data = 'A' :: "ccepted password for ".data from rfl] at hs1
  exact dropLit_head _ _ _ _ hs1

/-- At any single start position at most one of the two patterns can
match: the failed pattern requires the next character to be `F`, the
success pattern requires it to be `A`. -/
theorem at_most_one_pattern (s : List Char) :
    failedAt s = none ∨ acceptedAt s = none := by
  cases hf : failedAt s with
  | none => exact Or.inl rfl
  | some r =>
    cases ha : acceptedAt s with
    | none => exact Or.inr rfl
    | some r2 =>
      have h1 := failedAt_head s r hf
      have h2 := acceptedAt_head s r2 ha
      exact absurd (h1.symm.trans h2) (by decide)

theorem filterMap_none_of_none {α β : Type} (f : α → Option β) :
    ∀ l : List α, (∀ a ∈ l, f a = none) → l.filterMap f = [] := by
  intro l h
  induction l with
  | nil => rfl
  | cons a as ih =>
    rw [List.filterMap_cons, h a (by simp)]
    exact ih fun b hb => h b (by simp [hb])

/-! ### Claims -/

/-- C1: every line on which the failed pattern matches appends exactly
one record to `failed_logins` — user and ip are the two captures, raw
is the stripped line — and nothing to `successful_logins`; on the
sample line the captured user is `bob` (the consumed `invalid user `
prefix is excluded), the ip is `10.0.0.5`, the raw field is the
trimmed line, and no successful record is produced. -/
theorem C1_failed_line_appends_one_record :
    (∀ (lines : List String) (line u ip : String),
        searchFailed line.data = some (u, ip) →
        parse_auth_log (lines ++ [line]) =
          ((parse_auth_log lines).1 ++ [⟨u, ip, pyStrip line⟩], (parse_auth_log lines).2)) ∧
    parse_auth_log ["Failed password for invalid user bob from 10.0.0.5 port 22 ssh2"] =
      ([⟨"bob", "10.0.0.5", "Failed password for invalid user bob from 10.0.0.5 port 22 ssh2"⟩],
        []) := by
  constructor
  · intro lines line u ip h
    rw [parse_snoc, step_failed _ _ _ _ h]
  · decide

theorem C1_failed_line_appends_one_record_witness :
    parse_auth_log ([] ++ ["Failed password for eve from 1.2.3.4 port 22 ssh2"]) =
      ((parse_auth_log []).1 ++
          [⟨"eve", "1.2.3.4", pyStrip "Failed password for eve from 1.2.3.4 port 22 ssh2"⟩],
        (parse_auth_log []).2) :=
  C1_failed_line_appends_one_record.1 []
    "Failed password for eve from 1.2.3.4 port 22 ssh2" "eve" "1.2.3.4" (by decide)

/-- C2: every line on which the failed pattern does not match but the
success pattern does appends exactly one record to
`successful_logins` with the captured user and ip and the stripped
line as raw; the sample `alice` line yields exactly that one
successful record and no failed record. -/
theorem C2_accepted_line_appends_one_record :
    (∀ (lines : List String) (line u ip : String),
        searchFailed line.data = none →
        searchAccepted line.data = some (u, ip) →
        parse_auth_log (lines ++ [line]) =
          ((parse_auth_log lines).1, (parse_auth_log lines).2 ++ [⟨u, ip, pyStrip line⟩])) ∧
    parse_auth_log ["Accepted password for alice from 192.168.1.1 port 22 ssh2"] =
      ([],
        [⟨"alice", "192.168.1.1", "Accepted password for alice from 192.168.1.1 port 22 ssh2"⟩]) := by
  constructor
  · intro lines line u ip hf ha
    rw [parse_snoc, step_accepted _ _ _ _ hf ha]
  · decide

theorem C2_accepted_line_appends_one_record_witness :
    parse_auth_log ([] ++ ["Accepted password for carol from 10.9.8.7 port 22 ssh2"]) =
      ((parse_auth_log []).1,
        (parse_auth_log []).2 ++
          [⟨"carol", "10.9.8.7", pyStrip "Accepted password for carol from 10.9.8.7 port 22 ssh2"⟩]) :=
  C2_accepted_line_appends_one_record.1 []
    "Accepted password for carol from 10.9.8.7 port 22 ssh2" "carol" "10.9.8.7"
    (by decide) (by decide)

/-- C3: a line on which the failed pattern matches is recorded only in
`failed_logins`; `successful_logins` is left unchanged (the `continue`
skips the success check), even when the success pattern would also
match the line. -/
theorem C3_failed_priority_excludes_success :
    ∀ (lines : List String) (line u ip : String),
      searchFailed line.data = some (u, ip) →
      (parse_auth_log (lines ++ [line])).2 = (parse_auth_log lines).2 ∧
      (parse_auth_log (lines ++ [line])).1 =
        (parse_auth_log lines).1 ++ [⟨u, ip, pyStrip line⟩] := by
  intro lines line u ip h
  rw [parse_snoc, step_failed _ _ _ _ h]
  exact ⟨rfl, rfl⟩

theorem C3_failed_priority_excludes_success_witness :
    (parse_auth_log ([] ++
          ["Failed password for a from 1.1.1.1 port 2 ssh2 Accepted password for b from 2.2.2.2 port 3 ssh2"])).2 =
        (parse_auth_log []).2 ∧
    (parse_auth_log ([] ++
          ["Failed password for a from 1.1.1.1 port 2 ssh2 Accepted password for b from 2.2.2.2 port 3 ssh2"])).1 =
      (parse_auth_log []).1 ++
        [⟨"a", "1.1.1.1",
          pyStrip "Failed password for a from 1.1.1.1 port 2 ssh2 Accepted password for b from 2.2.2.2 port 3 ssh2"⟩] :=
  C3_failed_priority_excludes_success []
    "Failed password for a from 1.1.1.1 port 2 ssh2 Accepted password for b from 2.2.2.2 port 3 ssh2"
    "a" "1.1.1.1" (by decide)

/-- C4: the scan is exactly an order-preserving per-line `filterMap`:
each output sequence lists, in input-line order, the record of every
line it classifies, with no deduplication and no reordering. -/
theorem C4_order_preserved (lines : List String) :
    parse_auth_log lines = (lines.filterMap failedRec, lines.filterMap succRec) :=
  parse_filterMap lines

/-- C5: when no line matches either pattern, the scan returns two
empty sequences and `main` still writes both JSON files, each with
contents `[]`. -/
theorem C5_no_matches_empty_outputs :
    ∀ (lines : List String) (logPath logDir : String),
      (∀ line ∈ lines, searchFailed line.data = none ∧ searchAccepted line.data = none) →
      parse_auth_log lines = ([], []) ∧
      (mainFn true lines logPath logDir).wroteFailed = some "[]" ∧
      (mainFn true lines logPath logDir).wroteSuccess = some "[]" := by
  intro lines logPath logDir h
  have h1 : lines.filterMap failedRec = [] :=
    filterMap_none_of_none _ lines fun l hl => by simp [failedRec, (h l hl).1]
  have h2 : lines.filterMap succRec = [] :=
    filterMap_none_of_none _ lines fun l hl => by simp [succRec, (h l hl).1, (h l hl).2]
  have hp : parse_auth_log lines = ([], []) := by
    rw [parse_filterMap, h1, h2]
  refine ⟨hp, ?_, ?_⟩ <;> simp [mainFn, hp, dumpAttempts]

theorem C5_no_matches_empty_outputs_witness :
    parse_auth_log ["hello world", "", "session opened for user root"] = ([], []) ∧
    (mainFn true ["hello world", "", "session opened for user root"]
        "/var/log/auth.log" "/var/log/").wroteFailed = some "[]" ∧
    (mainFn true ["hello world", "", "session opened for user root"]
        "/var/log/auth.log" "/var/log/").wroteSuccess = some "[]" :=
  C5_no_matches_empty_outputs ["hello world", "", "session opened for user root"]
    "/var/log/auth.log" "/var/log/" (by decide)

/-- C6: when the log path does not exist, `main` prints the error
message and returns early: nothing is scanned or written, and no
exception is raised (the model is a total function; its result here is
exactly the early-return output). -/
theorem C6_missing_file_early_return :
    ∀ (lines : List String) (logPath logDir : String),
      mainFn false lines logPath logDir =
        { printed := ["Error: Log file does not exist: " ++ logPath]
          wroteFailed := none
          wroteSuccess := none } := by
  intro lines logPath logDir
  rfl

/-- C7: the ip capture `[\d\.]+` is not validated as IPv4: a line with
`999.999.999.999` in the pattern position matches and that string is
recorded verbatim as the ip field. -/
theorem C7_ip_not_validated :
    searchFailed "Failed password for root from 999.999.999.999 port 22 ssh2".data =
      some ("root", "999.999.999.999") ∧
    parse_auth_log ["Failed password for root from 999.999.999.999 port 22 ssh2"] =
      ([⟨"root", "999.999.999.999",
          "Failed password for root from 999.999.999.999 port 22 ssh2"⟩], []) := by
  decide

/-- C8 counterexample: the two patterns are not disjoint per line under
`re.search` — a single line containing both a failed and an accepted
message matches both patterns, so the claim "for every input line not
both patterns match" is false at this input. -/
theorem C8_counterexample_both_match_one_line :
    (searchFailed
        "Failed password for a from 1.1.1.1 port 2 ssh2 Accepted password for b from 2.2.2.2 port 3 ssh2".data).isSome
      = true ∧
    (searchAccepted
        "Failed password for a from 1.1.1.1 port 2 ssh2 Accepted password for b from 2.2.2.2 port 3 ssh2".data).isSome
      = true := by
  decide

/-- C8 (amended): the two patterns are disjoint at any single match
position (`Failed password` vs `Accepted password`), but a line may
contain both messages at different positions and then both searches
match; on such a line the priority rule does take effect and the line
is recorded only as failed. -/
theorem C8_amended_positionwise_disjoint :
    (∀ s : List Char, failedAt s = none ∨ acceptedAt s = none) ∧
    parse_auth_log
        ["Failed password for a from 1.1.1.1 port 2 ssh2 Accepted password for b from 2.2.2.2 port 3 ssh2"] =
      ([⟨"a", "1.1.1.1",
          "Failed password for a from 1.1.1.1 port 2 ssh2 Accepted password for b from 2.2.2.2 port 3 ssh2"⟩],
        []) := by
  exact ⟨at_most_one_pattern, by decide⟩

/-- C9: the scan is deterministic — over the same unchanged file
contents, two runs of `parse_auth_log` (and of `main` on an existing
file) produce identical sequences and identical output files.  In this
pure embedding determinism holds by construction. -/
theorem C9_deterministic_scan :
    ∀ (lines1 lines2 : List String) (logPath logDir : String),
      lines1 = lines2 →
      parse_auth_log lines1 = parse_auth_log lines2 ∧
      mainFn true lines1 logPath logDir = mainFn true lines2 logPath logDir := by
  intro lines1 lines2 logPath logDir h
  subst h
  exact ⟨rfl, rfl⟩

theorem C9_deterministic_scan_witness :
    parse_auth_log ["Failed password for invalid user bob from 10.0.0.5 port 22 ssh2"] =
        parse_auth_log ["Failed password for invalid user bob from 10.0.0.5 port 22 ssh2"] ∧
    mainFn true ["Failed password for invalid user bob from 10.0.0.5 port 22 ssh2"]
        "/var/log/auth.log" "/var/log/" =
      mainFn true ["Failed password for invalid user bob from 10.0.0.5 port 22 ssh2"]
        "/var/log/auth.log" "/var/log/" :=
  C9_deterministic_scan
    ["Failed password for invalid user bob from 10.0.0.5 port 22 ssh2"]
    ["Failed password for invalid user bob from 10.0.0.5 port 22 ssh2"]
    "/var/log/auth.log" "/var/log/" rfl

/-- C10: matching is an unanchored substring search — any line with a
position at which a pattern matches is classified, however much text
precedes or follows (shown generally for both patterns and concretely
on a syslog-prefixed line with trailing text) — while a line whose
username contains a non-word character before ` from` matches neither
pattern and is silently skipped rather than partially captured. -/
theorem C10_unanchored_search_and_word_boundary :
    (∀ (pre s : List Char) (u ip : String),
        failedAt s = some (u, ip) → (searchFailed (pre ++ s)).isSome = true) ∧
    (∀ (pre s : List Char) (u ip : String),
        acceptedAt s = some (u, ip) → (searchAccepted (pre ++ s)).isSome = true) ∧
    parse_auth_log
        ["Jan 10 12:00:01 host sshd[123]: Failed password for invalid user bob from 10.0.0.5 port 22 ssh2 extra"] =
      ([⟨"bob", "10.0.0.5",
          "Jan 10 12:00:01 host sshd[123]: Failed password for invalid user bob from 10.0.0.5 port 22 ssh2 extra"⟩],
        []) ∧
    searchFailed "Failed password for web-admin from 10.0.0.1 port 22 ssh2".data = none ∧
    searchAccepted "Failed password for web-admin from 10.0.0.1 port 22 ssh2".data = none ∧
    parse_auth_log ["Failed password for web-admin from 10.0.0.1 port 22 ssh2"] = ([], []) := by
  refine ⟨?_, ?_, by decide, by decide, by decide, by decide⟩
  · intro pre s u ip h
    exact searchAux_append_isSome failedAt pre s (by rw [h]; rfl)
  · intro pre s u ip h
    exact searchAux_append_isSome acceptedAt pre s (by rw [h]; rfl)

theorem C10_unanchored_search_and_word_boundary_witness :
    (searchFailed ("Oct 11 09:15:02 web01 sshd[999]: ".data ++
        "Failed password for eve from 2.3.4.5 port 1 ssh2".data)).isSome = true :=
  C10_unanchored_search_and_word_boundary.1
    "Oct 11 09:15:02 web01 sshd[999]: ".data
    "Failed password for eve from 2.3.4.5 port 1 ssh2".data
    "eve" "2.3.4.5" (by decide)
